import Mathlib

/-!
Shallow embedding of the SuperPang physics and session core
(classes Particle, BallSuperPang, Shot from the model file, and the
terminal-state / shot-firing logic of game.js).  JavaScript numbers are
modelled as rationals; positions, velocities and 2D vectors are pairs of
rationals.  Each definition mirrors one source function.
-/

/-- Embeds the 2D vector dot product helper scalarProduct2D. -/
def scalarProduct2D (vector1 vector2 : ℚ × ℚ) : ℚ :=
  vector1.1 * vector2.1 + vector1.2 * vector2.2

/-- State of a Particle object: position, previousPosition, velocity,
previousVelocity, radius, mass and id, exactly the fields set by the
Particle constructor. -/
structure Particle where
  position : ℚ × ℚ
  previousPosition : ℚ × ℚ
  velocity : ℚ × ℚ
  previousVelocity : ℚ × ℚ
  radius : ℚ
  mass : ℚ
  id : Option ℤ
deriving DecidableEq

namespace Particle

/-- Embeds the Particle constructor: previousPosition and previousVelocity
are initialised to copies of position and velocity. -/
def create (position velocity : ℚ × ℚ) (radius mass : ℚ)
    (id : Option ℤ := none) : Particle :=
  { position := position
    previousPosition := position
    velocity := velocity
    previousVelocity := velocity
    radius := radius
    mass := mass
    id := id }

/-- Embeds the first branch of Particle.move (both container arguments
null): snapshot previousPosition, then add the velocity to the position. -/
def moveFree (p : Particle) : Particle :=
  { p with
    previousPosition := p.position
    position := (p.position.1 + p.velocity.1, p.position.2 + p.velocity.2) }

/-- Embeds the second branch of Particle.move (container width and height
given): add the velocity to the position, then run the four wall checks in
source order (right, left, bottom, top).  A horizontal wall check clamps x
one pixel inside the wall and negates the current horizontal velocity; a
vertical wall check clamps y one pixel inside the wall, restores the
vertical velocity from previousVelocity and then negates it. -/
def moveBounded (p0 : Particle) (containerWidth containerHeight : ℚ) : Particle :=
  let p1 := { p0 with
    position := (p0.position.1 + p0.velocity.1, p0.position.2 + p0.velocity.2) }
  let p2 := if containerWidth ≤ p1.position.1 + p1.radius then
      { p1 with position := (containerWidth - p1.radius - 1, p1.position.2)
                velocity := (-p1.velocity.1, p1.velocity.2) }
    else p1
  let p3 := if p2.position.1 - p2.radius ≤ 0 then
      { p2 with position := (p2.radius + 1, p2.position.2)
                velocity := (-p2.velocity.1, p2.velocity.2) }
    else p2
  let p4 := if containerHeight ≤ p3.position.2 + p3.radius then
      { p3 with position := (p3.position.1, containerHeight - p3.radius - 1)
                velocity := (p3.velocity.1, -p3.previousVelocity.2) }
    else p3
  let p5 := if p4.position.2 - p4.radius ≤ 0 then
      { p4 with position := (p4.position.1, p4.radius + 1)
                velocity := (p4.velocity.1, -p4.previousVelocity.2) }
    else p4
  p5

/-- Embeds Particle.gravity: snapshot the vertical velocity into
previousVelocity, then add g to it. -/
def gravity (p : Particle) (g : ℚ) : Particle :=
  { p with
    previousVelocity := (p.previousVelocity.1, p.velocity.2)
    velocity := (p.velocity.1, p.velocity.2 + g) }

/-- Embeds the static method Particle.resolveCollision: both particles are
rewound to their previousPosition, two coefficients are computed from the
velocity and position differences, and the velocities are updated with the
two-body elastic collision formula.  Returns the updated pair. -/
def resolveCollision (particle1 particle2 : Particle) : Particle × Particle :=
  let p1 := { particle1 with position := particle1.previousPosition }
  let p2 := { particle2 with position := particle2.previousPosition }
  let coefficient1 :=
    scalarProduct2D (p1.velocity.1 - p2.velocity.1, p1.velocity.2 - p2.velocity.2)
        (p1.position.1 - p2.position.1, p1.position.2 - p2.position.2) /
      scalarProduct2D (p1.position.1 - p2.position.1, p1.position.2 - p2.position.2)
        (p1.position.1 - p2.position.1, p1.position.2 - p2.position.2)
  let coefficient2 :=
    scalarProduct2D (p2.velocity.1 - p1.velocity.1, p2.velocity.2 - p1.velocity.2)
        (p2.position.1 - p1.position.1, p2.position.2 - p1.position.2) /
      scalarProduct2D (p2.position.1 - p1.position.1, p2.position.2 - p1.position.2)
        (p2.position.1 - p1.position.1, p2.position.2 - p1.position.2)
  let q1 := { p1 with velocity :=
    (p1.velocity.1 - coefficient1 * (p1.position.1 - p2.position.1) * (2 * p2.mass) / (p1.mass + p2.mass),
     p1.velocity.2 - coefficient1 * (p1.position.2 - p2.position.2) * (2 * p2.mass) / (p1.mass + p2.mass)) }
  let q2 := { p2 with velocity :=
    (p2.velocity.1 - coefficient2 * (p2.position.1 - p1.position.1) * (2 * p1.mass) / (p1.mass + p2.mass),
     p2.velocity.2 - coefficient2 * (p2.position.2 - p1.position.2) * (2 * p1.mass) / (p1.mass + p2.mass)) }
  (q1, q2)

end Particle

/-- State of a BallSuperPang object: the underlying Particle plus the size
field stored after normalisation. -/
structure BallSuperPang where
  toParticle : Particle
  size : ℚ
deriving DecidableEq

namespace BallSuperPang

/-- Embeds the BallSuperPang constructor: the switch on size maps 1, 2, 3
to radii 10, 20, 40 and any other value to size 4 with radius 70, then the
Particle constructor runs with mass 1. -/
def create (position velocity : ℚ × ℚ) (size : ℚ)
    (id : Option ℤ := none) : BallSuperPang :=
  let sizeRadius : ℚ × ℚ :=
    if size = 1 then (1, 10)
    else if size = 2 then (2, 20)
    else if size = 3 then (3, 40)
    else (4, 70)
  { toParticle := Particle.create position velocity sizeRadius.2 1 id
    size := sizeRadius.1 }

/-- Position of a ball, read through the underlying Particle. -/
def position (b : BallSuperPang) : ℚ × ℚ := b.toParticle.position

/-- Velocity of a ball, read through the underlying Particle. -/
def velocity (b : BallSuperPang) : ℚ × ℚ := b.toParticle.velocity

/-- Radius of a ball, read through the underlying Particle. -/
def radius (b : BallSuperPang) : ℚ := b.toParticle.radius

/-- Embeds BallSuperPang.break: a ball of size greater than 1 produces two
children of size minus 1, offset left-down and right-down by the parent
radius, with velocities (-abs vx, -abs vy) and (abs vx, -abs vy); a ball of
size 1 produces none. -/
def breakBall (b : BallSuperPang) : Option (BallSuperPang × BallSuperPang) :=
  if 1 < b.size then
    some
      (create (b.position.1 - b.radius, b.position.2 + b.radius)
        (-|b.velocity.1|, -|b.velocity.2|) (b.size - 1) none,
       create (b.position.1 + b.radius, b.position.2 + b.radius)
        (|b.velocity.1|, -|b.velocity.2|) (b.size - 1) none)
  else none

end BallSuperPang

/-- State of a Shot object: position, width, height, speed and id as set by
the Shot constructor and mutated by propagateOrRemove. -/
structure Shot where
  position : ℚ × ℚ
  width : ℚ
  height : ℚ
  speed : ℚ
  id : ℤ
deriving DecidableEq

namespace Shot

/-- Embeds the Shot constructor: height starts at 0. -/
def create (position : ℚ × ℚ) (speed width : ℚ) (id : ℤ) : Shot :=
  { position := position, width := width, height := 0, speed := speed, id := id }

/-- Embeds Shot.propagateOrRemove: while the top of the shot is below the
arena top (y above 0) the shot grows by speed and its y decreases by speed
and false is returned; otherwise nothing is mutated and true is returned,
telling the caller to delete the shot. -/
def propagateOrRemove (s : Shot) : Bool × Shot :=
  if 0 < s.position.2 then
    (false, { s with
      height := s.height + s.speed
      position := (s.position.1, s.position.2 - s.speed) })
  else (true, s)

/-- Applies propagateOrRemove n times, keeping only the shot state. -/
def iterate (s : Shot) : ℕ → Shot
  | 0 => s
  | n + 1 => ((iterate s n).propagateOrRemove).2

end Shot

/-- Outcome of the end-of-loop check in SuperPigeon.mainGameLoop. -/
inductive SessionOutcome where
  | Playing
  | Lost
  | Won
deriving DecidableEq

/-- Embeds the terminal check at the end of SuperPigeon.mainGameLoop: if
playerLives is truthy and the ball array is nonempty the next frame is
scheduled (Playing); otherwise, if playerLives is falsy the defeat screen
shows (Lost); otherwise the victory screen shows (Won). -/
def terminalState (playerLives : ℤ) (balls : List BallSuperPang) : SessionOutcome :=
  if playerLives ≠ 0 ∧ balls.length ≠ 0 then SessionOutcome.Playing
  else if playerLives = 0 then SessionOutcome.Lost
  else SessionOutcome.Won

/-- Shot-related session state touched by a fire request: the shot array
and the shared nextID counter. -/
structure SessionShots where
  shots : List Shot
  nextID : ℤ
deriving DecidableEq

/-- Embeds the fire-request handler of the keyboard (space key) and mouse
(left button) listeners in game.js: when the shot array holds fewer than
maxShots shots, a new shot is pushed with id nextID and nextID is
incremented; otherwise nothing happens. -/
def fireShot (st : SessionShots) (maxShots : ℕ) (position : ℚ × ℚ)
    (speed width : ℚ) : SessionShots :=
  if st.shots.length < maxShots then
    { shots := st.shots ++ [Shot.create position speed width st.nextID]
      nextID := st.nextID + 1 }
  else st

/-- One model-mutating step applied to a ball particle during a game tick:
either a gravity application or a bounded move. -/
inductive SimStep where
  | grav (g : ℚ)
  | bounded (w h : ℚ)

/-- Applies one SimStep to a particle. -/
def Particle.applySimStep (p : Particle) : SimStep → Particle
  | SimStep.grav g => p.gravity g
  | SimStep.bounded w h => p.moveBounded w h

/-- Applies a list of SimSteps to a particle, left to right. -/
def Particle.applySimSteps (p : Particle) (steps : List SimStep) : Particle :=
  steps.foldl Particle.applySimStep p

/-- The first wall check of a bounded move fires: after the velocity is
added, the right edge of the particle reaches the right wall. -/
def Particle.hitsRight (p : Particle) (w : ℚ) : Prop :=
  w ≤ p.position.1 + p.velocity.1 + p.radius

/-- The second wall check of a bounded move fires: the left edge reaches
the left wall, evaluated (as in the source) on the x value possibly already
clamped by the first check. -/
def Particle.hitsLeft (p : Particle) (w : ℚ) : Prop :=
  (if w ≤ p.position.1 + p.velocity.1 + p.radius then w - p.radius - 1
   else p.position.1 + p.velocity.1) - p.radius ≤ 0

/-- The third wall check of a bounded move fires: the bottom edge reaches
the bottom wall. -/
def Particle.hitsBottom (p : Particle) (h : ℚ) : Prop :=
  h ≤ p.position.2 + p.velocity.2 + p.radius

/-- The fourth wall check of a bounded move fires: the top edge reaches the
top wall, evaluated on the y value possibly already clamped by the third
check. -/
def Particle.hitsTop (p : Particle) (h : ℚ) : Prop :=
  (if h ≤ p.position.2 + p.velocity.2 + p.radius then h - p.radius - 1
   else p.position.2 + p.velocity.2) - p.radius ≤ 0

/-! Helper lemmas characterising the projections of a bounded move. -/

namespace Particle

theorem moveBounded_previousPosition (p : Particle) (w h : ℚ) :
    (p.moveBounded w h).previousPosition = p.previousPosition := by
  simp only [moveBounded]
  split_ifs <;> rfl

theorem moveBounded_previousVelocity (p : Particle) (w h : ℚ) :
    (p.moveBounded w h).previousVelocity = p.previousVelocity := by
  simp only [moveBounded]
  split_ifs <;> rfl

theorem moveBounded_radius (p : Particle) (w h : ℚ) :
    (p.moveBounded w h).radius = p.radius := by
  simp only [moveBounded]
  split_ifs <;> rfl

theorem moveBounded_position_fst (p : Particle) (w h : ℚ) :
    (p.moveBounded w h).position.1 =
      if w ≤ p.position.1 + p.velocity.1 + p.radius then
        (if w - p.radius - 1 - p.radius ≤ 0 then p.radius + 1 else w - p.radius - 1)
      else
        (if p.position.1 + p.velocity.1 - p.radius ≤ 0 then p.radius + 1
         else p.position.1 + p.velocity.1) := by
  simp only [moveBounded]
  split_ifs <;> rfl

theorem moveBounded_position_snd (p : Particle) (w h : ℚ) :
    (p.moveBounded w h).position.2 =
      if h ≤ p.position.2 + p.velocity.2 + p.radius then
        (if h - p.radius - 1 - p.radius ≤ 0 then p.radius + 1 else h - p.radius - 1)
      else
        (if p.position.2 + p.velocity.2 - p.radius ≤ 0 then p.radius + 1
         else p.position.2 + p.velocity.2) := by
  simp only [moveBounded]
  split_ifs <;> rfl

theorem moveBounded_velocity_fst (p : Particle) (w h : ℚ) :
    (p.moveBounded w h).velocity.1 =
      if w ≤ p.position.1 + p.velocity.1 + p.radius then
        (if w - p.radius - 1 - p.radius ≤ 0 then -(-p.velocity.1) else -p.velocity.1)
      else
        (if p.position.1 + p.velocity.1 - p.radius ≤ 0 then -p.velocity.1
         else p.velocity.1) := by
  simp only [moveBounded]
  split_ifs <;> rfl

theorem moveBounded_velocity_snd (p : Particle) (w h : ℚ) :
    (p.moveBounded w h).velocity.2 =
      if h ≤ p.position.2 + p.velocity.2 + p.radius then -p.previousVelocity.2
      else if p.position.2 + p.velocity.2 - p.radius ≤ 0 then -p.previousVelocity.2
      else p.velocity.2 := by
  simp only [moveBounded]
  split_ifs <;> rfl

end Particle

/-- C9: a bounded move never updates previousPosition; previousPosition is
snapshotted only by the free-move branch and at construction, so a particle
that has only ever experienced gravity and bounded moves since construction
still has its construction position as previousPosition, and
resolveCollision rewinds each particle exactly to its previousPosition. -/
theorem boundedMove_never_updates_previousPosition :
    (∀ (p : Particle) (w h : ℚ),
      (p.moveBounded w h).previousPosition = p.previousPosition) ∧
    (∀ p : Particle, p.moveFree.previousPosition = p.position) ∧
    (∀ (position velocity : ℚ × ℚ) (radius mass : ℚ) (id : Option ℤ)
        (steps : List SimStep),
      ((Particle.create position velocity radius mass id).applySimSteps
        steps).previousPosition = position) ∧
    (∀ a b : Particle,
      (Particle.resolveCollision a b).1.position = a.previousPosition ∧
      (Particle.resolveCollision a b).2.position = b.previousPosition) := by
  have hstep : ∀ (p : Particle) (s : SimStep),
      (p.applySimStep s).previousPosition = p.previousPosition := by
    intro p s
    cases s with
    | grav g => rfl
    | bounded w h => exact p.moveBounded_previousPosition w h
  have hsteps : ∀ (steps : List SimStep) (p : Particle),
      (p.applySimSteps steps).previousPosition = p.previousPosition := by
    intro steps
    induction steps with
    | nil => intro p; rfl
    | cons s rest ih =>
        intro p
        simp only [Particle.applySimSteps, List.foldl_cons] at ih ⊢
        rw [ih, hstep]
  refine ⟨fun p w h => p.moveBounded_previousPosition w h, fun p => rfl,
    fun position velocity radius mass id steps => ?_, fun a b => ⟨rfl, rfl⟩⟩
  rw [hsteps]
  rfl

/-- C5: the constructor maps sizes 1, 2, 3, 4 to radii 10, 20, 40, 70, and
any size outside 1, 2, 3 yields exactly the same ball as size 4 (size field
normalised to 4, radius 70). -/
theorem ball_radius_mapping :
    (∀ (pos vel : ℚ × ℚ) (id : Option ℤ),
      (BallSuperPang.create pos vel 1 id).radius = 10 ∧
      (BallSuperPang.create pos vel 1 id).size = 1) ∧
    (∀ (pos vel : ℚ × ℚ) (id : Option ℤ),
      (BallSuperPang.create pos vel 2 id).radius = 20 ∧
      (BallSuperPang.create pos vel 2 id).size = 2) ∧
    (∀ (pos vel : ℚ × ℚ) (id : Option ℤ),
      (BallSuperPang.create pos vel 3 id).radius = 40 ∧
      (BallSuperPang.create pos vel 3 id).size = 3) ∧
    (∀ (pos vel : ℚ × ℚ) (id : Option ℤ),
      (BallSuperPang.create pos vel 4 id).radius = 70 ∧
      (BallSuperPang.create pos vel 4 id).size = 4) ∧
    (∀ (pos vel : ℚ × ℚ) (id : Option ℤ) (s : ℚ), s ≠ 1 → s ≠ 2 → s ≠ 3 →
      BallSuperPang.create pos vel s id = BallSuperPang.create pos vel 4 id ∧
      (BallSuperPang.create pos vel s id).size = 4 ∧
      (BallSuperPang.create pos vel s id).radius = 70) := by
  refine ⟨fun pos vel id => ?_, fun pos vel id => ?_, fun pos vel id => ?_,
    fun pos vel id => ?_, fun pos vel id s h1 h2 h3 => ?_⟩
  · constructor <;> norm_num [BallSuperPang.create, BallSuperPang.radius, Particle.create]
  · constructor <;> norm_num [BallSuperPang.create, BallSuperPang.radius, Particle.create]
  · constructor <;> norm_num [BallSuperPang.create, BallSuperPang.radius, Particle.create]
  · constructor <;> norm_num [BallSuperPang.create, BallSuperPang.radius, Particle.create]
  · refine ⟨?_, ?_, ?_⟩ <;>
      simp [BallSuperPang.create, BallSuperPang.radius, Particle.create, h1, h2, h3]

/-- C5 witness: size 7 is normalised to size 4 with radius 70. -/
theorem ball_radius_mapping_witness :
    BallSuperPang.create (0, 0) (0, 0) 7 none = BallSuperPang.create (0, 0) (0, 0) 4 none ∧
    (BallSuperPang.create (0, 0) (0, 0) 7 none).size = 4 ∧
    (BallSuperPang.create (0, 0) (0, 0) 7 none).radius = 70 :=
  ball_radius_mapping.2.2.2.2 (0, 0) (0, 0) none 7 (by norm_num) (by norm_num)
    (by norm_num)

/-- C7: the terminal check gives Lost precedence: zero lives yields Lost
even with no balls left; with lives remaining, an empty ball list yields
Won and a nonempty one keeps Playing. -/
theorem terminal_state_lost_precedence (lives : ℤ) (balls : List BallSuperPang) :
    (lives = 0 → terminalState lives balls = SessionOutcome.Lost) ∧
    (lives ≠ 0 → balls = [] → terminalState lives balls = SessionOutcome.Won) ∧
    (lives ≠ 0 → balls ≠ [] → terminalState lives balls = SessionOutcome.Playing) := by
  refine ⟨fun h0 => ?_, fun hl hb => ?_, fun hl hb => ?_⟩ <;>
    simp_all [terminalState, List.length_eq_zero]

/-- C7 witness: concrete instances, lives 0 with no balls is Lost. -/
theorem terminal_state_lost_precedence_witness :
    terminalState 0 [] = SessionOutcome.Lost ∧
    terminalState 2 [] = SessionOutcome.Won ∧
    terminalState 2 [BallSuperPang.create (0, 0) (0, 0) 1 none] =
      SessionOutcome.Playing :=
  ⟨(terminal_state_lost_precedence 0 []).1 rfl,
   (terminal_state_lost_precedence 2 []).2.1 (by norm_num) rfl,
   (terminal_state_lost_precedence 2 [BallSuperPang.create (0, 0) (0, 0) 1 none]).2.2
     (by norm_num) (by simp)⟩

/-- C8: a fire request with the shot list already at maxShots is a no-op
(the state, nextID included, is unchanged); below maxShots it appends
exactly one shot carrying the old nextID and increments nextID. -/
theorem fire_shot_at_max_is_noop (st : SessionShots) (maxShots : ℕ)
    (pos : ℚ × ℚ) (speed width : ℚ) :
    (maxShots ≤ st.shots.length → fireShot st maxShots pos speed width = st) ∧
    (st.shots.length < maxShots →
      (fireShot st maxShots pos speed width).shots =
        st.shots ++ [Shot.create pos speed width st.nextID] ∧
      (fireShot st maxShots pos speed width).shots.length = st.shots.length + 1 ∧
      (fireShot st maxShots pos speed width).nextID = st.nextID + 1) := by
  constructor
  · intro hmax
    simp [fireShot, Nat.not_lt.mpr hmax]
  · intro hlt
    simp [fireShot, hlt]

/-- C8 witness: with maxShots 4, firing from a full list changes nothing
and firing from an empty list appends one shot. -/
theorem fire_shot_at_max_is_noop_witness :
    fireShot ⟨[Shot.create (0, 0) 6 3 0, Shot.create (0, 0) 6 3 1,
      Shot.create (0, 0) 6 3 2, Shot.create (0, 0) 6 3 3], 4⟩ 4 (5, 5) 6 3 =
      ⟨[Shot.create (0, 0) 6 3 0, Shot.create (0, 0) 6 3 1,
        Shot.create (0, 0) 6 3 2, Shot.create (0, 0) 6 3 3], 4⟩ ∧
    (fireShot ⟨[], 0⟩ 4 (5, 5) 6 3).shots = [] ++ [Shot.create (5, 5) 6 3 0] ∧
    (fireShot ⟨[], 0⟩ 4 (5, 5) 6 3).shots.length = 0 + 1 ∧
    (fireShot ⟨[], 0⟩ 4 (5, 5) 6 3).nextID = 0 + 1 :=
  ⟨(fire_shot_at_max_is_noop ⟨[Shot.create (0, 0) 6 3 0, Shot.create (0, 0) 6 3 1,
      Shot.create (0, 0) 6 3 2, Shot.create (0, 0) 6 3 3], 4⟩ 4 (5, 5) 6 3).1
      (by norm_num),
   (fire_shot_at_max_is_noop ⟨[], 0⟩ 4 (5, 5) 6 3).2 (by norm_num)⟩

/-- C10: propagateOrRemove keeps the bottom edge (y plus height) of a shot
invariant: with y above 0 it moves y up by speed and grows height by speed
returning false, with y at or below 0 it mutates nothing and returns true;
the bottom edge is therefore fixed across any number of calls. -/
theorem shot_bottom_edge_invariant (s : Shot) :
    ((s.propagateOrRemove).2.position.2 + (s.propagateOrRemove).2.height =
      s.position.2 + s.height) ∧
    (0 < s.position.2 →
      s.propagateOrRemove = (false, { s with
        height := s.height + s.speed
        position := (s.position.1, s.position.2 - s.speed) })) ∧
    (s.position.2 ≤ 0 → s.propagateOrRemove = (true, s)) ∧
    (∀ n : ℕ, (s.iterate n).position.2 + (s.iterate n).height =
      s.position.2 + s.height) := by
  have hone : ∀ t : Shot, (t.propagateOrRemove).2.position.2 +
      (t.propagateOrRemove).2.height = t.position.2 + t.height := by
    intro t
    simp only [Shot.propagateOrRemove]
    split_ifs
    · dsimp only
      ring
    · rfl
  refine ⟨hone s, fun hpos => ?_, fun hneg => ?_, fun n => ?_⟩
  · simp [Shot.propagateOrRemove, hpos]
  · simp [Shot.propagateOrRemove, not_lt.mpr hneg]
  · induction n with
    | zero => rfl
    | succ m ih => rw [Shot.iterate, hone, ih]

/-- C10 witness: a shot at y 6 with speed 6 keeps its bottom edge at 6
through the call, and a shot at y 0 is returned unchanged with true. -/
theorem shot_bottom_edge_invariant_witness :
    ((Shot.create (0, 6) 6 3 0).propagateOrRemove).2.position.2 +
      ((Shot.create (0, 6) 6 3 0).propagateOrRemove).2.height = 6 + 0 ∧
    (Shot.create (0, 0) 6 3 0).propagateOrRemove = (true, Shot.create (0, 0) 6 3 0) :=
  ⟨(shot_bottom_edge_invariant (Shot.create (0, 6) 6 3 0)).1,
   (shot_bottom_edge_invariant (Shot.create (0, 0) 6 3 0)).2.2.1
     (by norm_num [Shot.create])⟩

/-- Helper: the ball constructor stores the given position unchanged. -/
theorem BallSuperPang.create_position (P V : ℚ × ℚ) (t : ℚ) (j : Option ℤ) :
    (BallSuperPang.create P V t j).position = P := rfl

/-- Helper: the ball constructor stores the given velocity unchanged. -/
theorem BallSuperPang.create_velocity (P V : ℚ × ℚ) (t : ℚ) (j : Option ℤ) :
    (BallSuperPang.create P V t j).velocity = V := rfl

/-- Helper: for sizes 1, 2 and 3 the switch keeps the size unchanged. -/
theorem BallSuperPang.create_size_exact (P V : ℚ × ℚ) (t : ℚ) (j : Option ℤ)
    (ht : t = 1 ∨ t = 2 ∨ t = 3) : (BallSuperPang.create P V t j).size = t := by
  rcases ht with h | h | h <;> subst h <;> norm_num [BallSuperPang.create]

/-- Helper: the constructed size is 1, 2, 3 or 4. -/
theorem BallSuperPang.create_size_cases (P V : ℚ × ℚ) (t : ℚ) (j : Option ℤ) :
    (BallSuperPang.create P V t j).size = 1 ∨ (BallSuperPang.create P V t j).size = 2 ∨
    (BallSuperPang.create P V t j).size = 3 ∨ (BallSuperPang.create P V t j).size = 4 := by
  by_cases h1 : t = 1
  · left; subst h1; norm_num [BallSuperPang.create]
  · by_cases h2 : t = 2
    · right; left; subst h2; norm_num [BallSuperPang.create]
    · by_cases h3 : t = 3
      · right; right; left; subst h3; norm_num [BallSuperPang.create]
      · right; right; right; norm_num [BallSuperPang.create, h1, h2, h3]

/-- C1 (amended): for every constructed ball of size above 1, breakBall
returns exactly two children of size one less, positioned at
(x - radius, y + radius) and (x + radius, y + radius), with velocities
(-abs vx, -abs vy) and (abs vx, -abs vy); hence the left child has
nonpositive and the right child nonnegative horizontal velocity, and both
children have NONPOSITIVE vertical velocity, strictly negative exactly when
the parent vertical velocity is nonzero.  For a constructed ball of size 1,
breakBall returns none. -/
theorem ball_break_two_children (pos vel : ℚ × ℚ) (s : ℚ) (i : Option ℤ) :
    (1 < (BallSuperPang.create pos vel s i).size →
      ∃ c : BallSuperPang × BallSuperPang,
        (BallSuperPang.create pos vel s i).breakBall = some c ∧
        c.1.size = (BallSuperPang.create pos vel s i).size - 1 ∧
        c.2.size = (BallSuperPang.create pos vel s i).size - 1 ∧
        c.1.position = (pos.1 - (BallSuperPang.create pos vel s i).radius,
          pos.2 + (BallSuperPang.create pos vel s i).radius) ∧
        c.2.position = (pos.1 + (BallSuperPang.create pos vel s i).radius,
          pos.2 + (BallSuperPang.create pos vel s i).radius) ∧
        c.1.velocity = (-|vel.1|, -|vel.2|) ∧
        c.2.velocity = (|vel.1|, -|vel.2|) ∧
        c.1.velocity.1 ≤ 0 ∧ 0 ≤ c.2.velocity.1 ∧
        c.1.velocity.2 ≤ 0 ∧ c.2.velocity.2 ≤ 0 ∧
        (vel.2 ≠ 0 → c.1.velocity.2 < 0 ∧ c.2.velocity.2 < 0)) ∧
    ((BallSuperPang.create pos vel s i).size ≤ 1 →
      (BallSuperPang.create pos vel s i).breakBall = none) := by
  constructor
  · intro hlt
    have hsz : (BallSuperPang.create pos vel s i).size = 2 ∨
        (BallSuperPang.create pos vel s i).size = 3 ∨
        (BallSuperPang.create pos vel s i).size = 4 := by
      rcases BallSuperPang.create_size_cases pos vel s i with h | h | h | h
      · rw [h] at hlt; norm_num at hlt
      · exact Or.inl h
      · exact Or.inr (Or.inl h)
      · exact Or.inr (Or.inr h)
    have hchild : (BallSuperPang.create pos vel s i).size - 1 = 1 ∨
        (BallSuperPang.create pos vel s i).size - 1 = 2 ∨
        (BallSuperPang.create pos vel s i).size - 1 = 3 := by
      rcases hsz with h | h | h <;> rw [h] <;> norm_num
    refine ⟨(BallSuperPang.create
        ((BallSuperPang.create pos vel s i).position.1 -
          (BallSuperPang.create pos vel s i).radius,
         (BallSuperPang.create pos vel s i).position.2 +
          (BallSuperPang.create pos vel s i).radius)
        (-|(BallSuperPang.create pos vel s i).velocity.1|,
         -|(BallSuperPang.create pos vel s i).velocity.2|)
        ((BallSuperPang.create pos vel s i).size - 1) none,
      BallSuperPang.create
        ((BallSuperPang.create pos vel s i).position.1 +
          (BallSuperPang.create pos vel s i).radius,
         (BallSuperPang.create pos vel s i).position.2 +
          (BallSuperPang.create pos vel s i).radius)
        (|(BallSuperPang.create pos vel s i).velocity.1|,
         -|(BallSuperPang.create pos vel s i).velocity.2|)
        ((BallSuperPang.create pos vel s i).size - 1) none), ?_, ?_, ?_,
      ?_, ?_, ?_, ?_, ?_, ?_, ?_, ?_, ?_⟩
    · simp only [BallSuperPang.breakBall, if_pos hlt]
    · exact BallSuperPang.create_size_exact _ _ _ _ hchild
    · exact BallSuperPang.create_size_exact _ _ _ _ hchild
    · rfl
    · rfl
    · rfl
    · rfl
    · exact neg_nonpos.mpr (abs_nonneg _)
    · exact abs_nonneg _
    · exact neg_nonpos.mpr (abs_nonneg _)
    · exact neg_nonpos.mpr (abs_nonneg _)
    · intro hv
      constructor <;> exact neg_neg_of_pos (abs_pos.mpr hv)
  · intro hle
    simp only [BallSuperPang.breakBall, if_neg (not_lt.mpr hle)]

/-- C1 counterexample: the claim as stated demands strictly negative
vertical velocity for both children, but a size-2 ball whose vertical
velocity is 0 breaks into children with vertical velocity exactly 0. -/
theorem ball_break_child_vy_zero_counterexample :
    1 < (BallSuperPang.create (0, 0) (1, 0) 2 none).size ∧
    ¬ (∀ c1 c2 : BallSuperPang,
        (BallSuperPang.create (0, 0) (1, 0) 2 none).breakBall = some (c1, c2) →
        c1.velocity.2 < 0 ∧ c2.velocity.2 < 0) := by
  have hsz : (BallSuperPang.create (0, 0) (1, 0) 2 none).size = 2 :=
    BallSuperPang.create_size_exact _ _ _ _ (Or.inr (Or.inl rfl))
  have hlt : 1 < (BallSuperPang.create (0, 0) (1, 0) 2 none).size := by
    rw [hsz]; norm_num
  refine ⟨hlt, fun hall => ?_⟩
  have hbreak := hall
    (BallSuperPang.create
      ((BallSuperPang.create (0, 0) (1, 0) 2 none).position.1 -
        (BallSuperPang.create (0, 0) (1, 0) 2 none).radius,
       (BallSuperPang.create (0, 0) (1, 0) 2 none).position.2 +
        (BallSuperPang.create (0, 0) (1, 0) 2 none).radius)
      (-|(BallSuperPang.create (0, 0) (1, 0) 2 none).velocity.1|,
       -|(BallSuperPang.create (0, 0) (1, 0) 2 none).velocity.2|)
      ((BallSuperPang.create (0, 0) (1, 0) 2 none).size - 1) none)
    (BallSuperPang.create
      ((BallSuperPang.create (0, 0) (1, 0) 2 none).position.1 +
        (BallSuperPang.create (0, 0) (1, 0) 2 none).radius,
       (BallSuperPang.create (0, 0) (1, 0) 2 none).position.2 +
        (BallSuperPang.create (0, 0) (1, 0) 2 none).radius)
      (|(BallSuperPang.create (0, 0) (1, 0) 2 none).velocity.1|,
       -|(BallSuperPang.create (0, 0) (1, 0) 2 none).velocity.2|)
      ((BallSuperPang.create (0, 0) (1, 0) 2 none).size - 1) none)
    (by simp only [BallSuperPang.breakBall, if_pos hlt])
  have hv : (BallSuperPang.create
      ((BallSuperPang.create (0, 0) (1, 0) 2 none).position.1 -
        (BallSuperPang.create (0, 0) (1, 0) 2 none).radius,
       (BallSuperPang.create (0, 0) (1, 0) 2 none).position.2 +
        (BallSuperPang.create (0, 0) (1, 0) 2 none).radius)
      (-|(BallSuperPang.create (0, 0) (1, 0) 2 none).velocity.1|,
       -|(BallSuperPang.create (0, 0) (1, 0) 2 none).velocity.2|)
      ((BallSuperPang.create (0, 0) (1, 0) 2 none).size - 1) none).velocity.2 = 0 := by
    rw [BallSuperPang.create_velocity]
    norm_num [BallSuperPang.create_velocity]
  rw [hv] at hbreak
  exact lt_irrefl 0 hbreak.1

/-- C1 witness: a size-4 ball with velocity (3, -2) does break into two
children, and a size-1 ball yields none. -/
theorem ball_break_two_children_witness :
    (BallSuperPang.create (100, 100) (3, -2) 4 none).breakBall ≠ none ∧
    (BallSuperPang.create (0, 0) (1, 1) 1 none).breakBall = none := by
  constructor
  · obtain ⟨c, hc, -⟩ := (ball_break_two_children (100, 100) (3, -2) 4 none).1
      (by rw [BallSuperPang.create_size_cases (100, 100) (3, -2) 4 none |>.resolve_left
        (by norm_num [BallSuperPang.create]) |>.resolve_left
        (by norm_num [BallSuperPang.create]) |>.resolve_left
        (by norm_num [BallSuperPang.create])]; norm_num)
    simp [hc]
  · exact (ball_break_two_children (0, 0) (1, 1) 1 none).2
      (by rw [BallSuperPang.create_size_exact (0, 0) (1, 1) 1 none (Or.inl rfl)])

/-- C2 counterexample: with a container narrower than the ball diameter
(width 5, radius 10) the two horizontal checks fire in sequence and leave
x at radius + 1 = 11, far outside the claimed band
[radius - 1, containerWidth - radius + 1] = [9, -4]. -/
theorem moveBounded_containment_counterexample :
    ((Particle.create (0, 50) (0, 0) 10 1 none).moveBounded 5 100).position.1 = 11 ∧
    ¬ ((Particle.create (0, 50) (0, 0) 10 1 none).moveBounded 5 100).position.1 ≤
        5 - ((Particle.create (0, 50) (0, 0) 10 1 none).moveBounded 5 100).radius + 1 := by
  rw [Particle.moveBounded_position_fst, Particle.moveBounded_radius]
  norm_num [Particle.create]

/-- C2 (amended): when the container is at least one ball diameter wide and
tall, a bounded move keeps the position inside
[radius - 1, containerDimension - radius + 1] on both axes, and on an axis
whose wall checks fired the position is exactly radius + 1 or
containerDimension - radius - 1. -/
theorem moveBounded_containment (p : Particle) (w h : ℚ)
    (hw : 2 * p.radius ≤ w) (hh : 2 * p.radius ≤ h) :
    (p.radius - 1 ≤ (p.moveBounded w h).position.1 ∧
      (p.moveBounded w h).position.1 ≤ w - p.radius + 1) ∧
    (p.radius - 1 ≤ (p.moveBounded w h).position.2 ∧
      (p.moveBounded w h).position.2 ≤ h - p.radius + 1) ∧
    (p.hitsRight w ∨ p.hitsLeft w →
      (p.moveBounded w h).position.1 = p.radius + 1 ∨
      (p.moveBounded w h).position.1 = w - p.radius - 1) ∧
    (p.hitsBottom h ∨ p.hitsTop h →
      (p.moveBounded w h).position.2 = p.radius + 1 ∨
      (p.moveBounded w h).position.2 = h - p.radius - 1) := by
  refine ⟨?_, ?_, ?_, ?_⟩
  · rw [p.moveBounded_position_fst w h]
    split_ifs <;> constructor <;> linarith
  · rw [p.moveBounded_position_snd w h]
    split_ifs <;> constructor <;> linarith
  · intro hov
    rw [p.moveBounded_position_fst w h]
    by_cases h1 : w ≤ p.position.1 + p.velocity.1 + p.radius
    · rw [if_pos h1]
      by_cases h2 : w - p.radius - 1 - p.radius ≤ 0
      · rw [if_pos h2]; left; rfl
      · rw [if_neg h2]; right; rfl
    · rw [if_neg h1]
      have hlft : p.position.1 + p.velocity.1 - p.radius ≤ 0 := by
        rcases hov with hr | hl
        · exact absurd hr h1
        · simpa [Particle.hitsLeft, if_neg h1] using hl
      rw [if_pos hlft]; left; rfl
  · intro hov
    rw [p.moveBounded_position_snd w h]
    by_cases h1 : h ≤ p.position.2 + p.velocity.2 + p.radius
    · rw [if_pos h1]
      by_cases h2 : h - p.radius - 1 - p.radius ≤ 0
      · rw [if_pos h2]; left; rfl
      · rw [if_neg h2]; right; rfl
    · rw [if_neg h1]
      have htp : p.position.2 + p.velocity.2 - p.radius ≤ 0 := by
        rcases hov with hb | ht
        · exact absurd hb h1
        · simpa [Particle.hitsTop, if_neg h1] using ht
      rw [if_pos htp]; left; rfl

/-- C2 witness: a radius-10 particle moving fast right and up in a 100 by
100 container ends up clamped on both axes. -/
theorem moveBounded_containment_witness :
    (((Particle.create (50, 50) (500, -200) 10 1 none).moveBounded 100 100).position.1 =
        (Particle.create (50, 50) (500, -200) 10 1 none).radius + 1 ∨
      ((Particle.create (50, 50) (500, -200) 10 1 none).moveBounded 100 100).position.1 =
        100 - (Particle.create (50, 50) (500, -200) 10 1 none).radius - 1) ∧
    (((Particle.create (50, 50) (500, -200) 10 1 none).moveBounded 100 100).position.2 =
        (Particle.create (50, 50) (500, -200) 10 1 none).radius + 1 ∨
      ((Particle.create (50, 50) (500, -200) 10 1 none).moveBounded 100 100).position.2 =
        100 - (Particle.create (50, 50) (500, -200) 10 1 none).radius - 1) :=
  ⟨(moveBounded_containment (Particle.create (50, 50) (500, -200) 10 1 none) 100 100
      (by norm_num [Particle.create]) (by norm_num [Particle.create])).2.2.1
    (Or.inl (by norm_num [Particle.hitsRight, Particle.create])),
   (moveBounded_containment (Particle.create (50, 50) (500, -200) 10 1 none) 100 100
      (by norm_num [Particle.create]) (by norm_num [Particle.create])).2.2.2
    (Or.inr (by norm_num [Particle.hitsTop, Particle.create]))⟩

/-- C6: after applyGravity then a bounded move, a vertical wall crossing
restores the vertical velocity captured before gravity and negates it (so
the result is minus the pre-gravity vertical velocity, and differs from
minus the post-gravity one whenever g is nonzero), while a single
horizontal wall crossing negates the current horizontal velocity. -/
theorem bounce_uses_pre_gravity_velocity (p : Particle) (g w h : ℚ) :
    (((p.gravity g).hitsBottom h ∨ (p.gravity g).hitsTop h) →
      ((p.gravity g).moveBounded w h).velocity.2 = -p.velocity.2) ∧
    (g ≠ 0 → ((p.gravity g).hitsBottom h ∨ (p.gravity g).hitsTop h) →
      ((p.gravity g).moveBounded w h).velocity.2 ≠ -(p.gravity g).velocity.2) ∧
    ((p.gravity g).hitsRight w ∧ ¬ (p.gravity g).hitsLeft w →
      ((p.gravity g).moveBounded w h).velocity.1 = -p.velocity.1) ∧
    (¬ (p.gravity g).hitsRight w ∧ (p.gravity g).hitsLeft w →
      ((p.gravity g).moveBounded w h).velocity.1 = -p.velocity.1) := by
  have hvert : ((p.gravity g).hitsBottom h ∨ (p.gravity g).hitsTop h) →
      ((p.gravity g).moveBounded w h).velocity.2 = -p.velocity.2 := by
    intro hov
    rw [Particle.moveBounded_velocity_snd]
    by_cases h1 : h ≤ (p.gravity g).position.2 + (p.gravity g).velocity.2 +
        (p.gravity g).radius
    · rw [if_pos h1]
      rfl
    · rw [if_neg h1]
      have htp : (p.gravity g).position.2 + (p.gravity g).velocity.2 -
          (p.gravity g).radius ≤ 0 := by
        rcases hov with hb | ht
        · exact absurd hb h1
        · simpa [Particle.hitsTop, if_neg h1] using ht
      rw [if_pos htp]
      rfl
  refine ⟨hvert, fun hg hov => ?_, fun hone => ?_, fun hone => ?_⟩
  · rw [hvert hov]
    simp only [Particle.gravity]
    intro heq
    rw [neg_eq_iff_eq_neg, neg_neg] at heq
    exact hg (by linarith)
  · rw [Particle.moveBounded_velocity_fst]
    obtain ⟨hr, hnl⟩ := hone
    have hr' : w ≤ (p.gravity g).position.1 + (p.gravity g).velocity.1 +
        (p.gravity g).radius := hr
    rw [if_pos hr']
    have h2 : ¬ (w - (p.gravity g).radius - 1 - (p.gravity g).radius ≤ 0) := by
      intro hcon
      exact hnl (by simpa [Particle.hitsLeft, if_pos hr'] using hcon)
    rw [if_neg h2]
    rfl
  · rw [Particle.moveBounded_velocity_fst]
    obtain ⟨hnr, hl⟩ := hone
    have hnr' : ¬ (w ≤ (p.gravity g).position.1 + (p.gravity g).velocity.1 +
        (p.gravity g).radius) := hnr
    rw [if_neg hnr']
    have h2 : (p.gravity g).position.1 + (p.gravity g).velocity.1 -
        (p.gravity g).radius ≤ 0 := by
      simpa [Particle.hitsLeft, if_neg hnr'] using hl
    rw [if_pos h2]
    rfl

/-- C6 witness: concrete bounces in a 100 by 100 container with gravity 1,
one particle hitting bottom and right walls, one hitting the left wall. -/
theorem bounce_uses_pre_gravity_velocity_witness :
    (((Particle.create (50, 50) (500, 500) 10 1 none).gravity 1).moveBounded
        100 100).velocity.2 =
      -(Particle.create (50, 50) (500, 500) 10 1 none).velocity.2 ∧
    (((Particle.create (50, 50) (500, 500) 10 1 none).gravity 1).moveBounded
        100 100).velocity.2 ≠
      -((Particle.create (50, 50) (500, 500) 10 1 none).gravity 1).velocity.2 ∧
    (((Particle.create (50, 50) (500, 500) 10 1 none).gravity 1).moveBounded
        100 100).velocity.1 =
      -(Particle.create (50, 50) (500, 500) 10 1 none).velocity.1 ∧
    (((Particle.create (50, 50) (-500, 500) 10 1 none).gravity 1).moveBounded
        100 100).velocity.1 =
      -(Particle.create (50, 50) (-500, 500) 10 1 none).velocity.1 :=
  ⟨(bounce_uses_pre_gravity_velocity (Particle.create (50, 50) (500, 500) 10 1 none)
      1 100 100).1
    (Or.inl (by norm_num [Particle.hitsBottom, Particle.gravity, Particle.create])),
   (bounce_uses_pre_gravity_velocity (Particle.create (50, 50) (500, 500) 10 1 none)
      1 100 100).2.1 (by norm_num)
    (Or.inl (by norm_num [Particle.hitsBottom, Particle.gravity, Particle.create])),
   (bounce_uses_pre_gravity_velocity (Particle.create (50, 50) (500, 500) 10 1 none)
      1 100 100).2.2.1
    ⟨by norm_num [Particle.hitsRight, Particle.gravity, Particle.create],
     by norm_num [Particle.hitsLeft, Particle.gravity, Particle.create]⟩,
   (bounce_uses_pre_gravity_velocity (Particle.create (50, 50) (-500, 500) 10 1 none)
      1 100 100).2.2.2
    ⟨by norm_num [Particle.hitsRight, Particle.gravity, Particle.create],
     by norm_num [Particle.hitsLeft, Particle.gravity, Particle.create]⟩⟩

/-- C3 counterexample: for a shot fired at y0 = 6 with speed 6 the ceiling
of y0/speed is 1 and y reaches 0 on call 1, but propagateOrRemove returns
false on that very call; it returns true only on call 2. -/
theorem shot_expiry_counterexample :
    (⌈(6 : ℚ) / 6⌉ = 1) ∧
    (((Shot.create (0, 6) 6 3 0).iterate 0).propagateOrRemove).1 = false ∧
    ((Shot.create (0, 6) 6 3 0).iterate 1).position.2 ≤ 0 ∧
    (((Shot.create (0, 6) 6 3 0).iterate 1).propagateOrRemove).1 = true := by
  refine ⟨by norm_num, ?_, ?_, ?_⟩ <;>
    norm_num [Shot.iterate, Shot.propagateOrRemove, Shot.create]

/-- C3 (amended): a shot fired at y0 above 0 with speed above 0 reaches y
at or below 0 after exactly k = ceil(y0/speed) calls to propagateOrRemove;
calls 1 through k all return false (including the call that moves y to or
below 0), and call k+1 is the first to return true. -/
theorem shot_expiry (px y0 speed width : ℚ) (sid : ℤ)
    (hy : 0 < y0) (hs : 0 < speed) :
    (∀ i : ℕ, i < ⌈y0 / speed⌉.toNat →
      0 < ((Shot.create (px, y0) speed width sid).iterate i).position.2 ∧
      (((Shot.create (px, y0) speed width sid).iterate i).propagateOrRemove).1 =
        false) ∧
    ((Shot.create (px, y0) speed width sid).iterate
      ⌈y0 / speed⌉.toNat).position.2 ≤ 0 ∧
    (((Shot.create (px, y0) speed width sid).iterate
      ⌈y0 / speed⌉.toNat).propagateOrRemove).1 = true := by
  set s0 := Shot.create (px, y0) speed width sid with hs0
  set k := ⌈y0 / speed⌉.toNat with hk
  have hkc : (k : ℚ) = ((⌈y0 / speed⌉ : ℤ) : ℚ) := by
    rw [hk]
    exact_mod_cast congrArg (fun z : ℤ => (z : ℚ))
      (Int.toNat_of_nonneg (le_of_lt (Int.ceil_pos.mpr (div_pos hy hs))))
  have hstep : ∀ t : Shot, ((t.propagateOrRemove).2.speed = t.speed) ∧
      (0 < t.position.2 →
        (t.propagateOrRemove).2.position.2 = t.position.2 - t.speed) := by
    intro t
    constructor
    · rw [Shot.propagateOrRemove]
      split_ifs <;> rfl
    · intro h
      rw [Shot.propagateOrRemove, if_pos h]
  have hspeed : ∀ i : ℕ, (s0.iterate i).speed = speed := by
    intro i
    induction i with
    | zero => rfl
    | succ n ih => rw [Shot.iterate, (hstep _).1, ih]
  have hceil : (k : ℚ) < y0 / speed + 1 := by
    rw [hkc]
    exact_mod_cast Int.ceil_lt_add_one (y0 / speed)
  have hpos : ∀ i : ℕ, i ≤ k → (s0.iterate i).position.2 = y0 - i * speed := by
    intro i
    induction i with
    | zero =>
        intro _
        simp [Shot.iterate, hs0, Shot.create]
    | succ n ih =>
        intro hn
        have hlt : n < k := Nat.lt_of_succ_le hn
        have hpn : (s0.iterate n).position.2 = y0 - n * speed :=
          ih (Nat.le_of_succ_le hn)
        have h2 : (n : ℚ) + 1 ≤ (k : ℚ) := by exact_mod_cast Nat.succ_le_of_lt hlt
        have h4 : (n : ℚ) < y0 / speed := by linarith
        have h5 : (n : ℚ) * speed < y0 := (lt_div_iff hs).mp h4
        have hposn : 0 < (s0.iterate n).position.2 := by
          rw [hpn]; linarith
        rw [Shot.iterate, (hstep _).2 hposn, hpn, hspeed n]
        push_cast
        ring
  have hreach : (s0.iterate k).position.2 ≤ 0 := by
    rw [hpos k le_rfl]
    have h6 : y0 / speed ≤ (k : ℚ) := by
      rw [hkc]
      exact_mod_cast Int.le_ceil (y0 / speed)
    have h7 : y0 ≤ (k : ℚ) * speed := (div_le_iff hs).mp h6
    linarith
  refine ⟨fun i hi => ?_, hreach, ?_⟩
  · have h2 : (i : ℚ) + 1 ≤ (k : ℚ) := by exact_mod_cast Nat.succ_le_of_lt hi
    have h4 : (i : ℚ) < y0 / speed := by linarith
    have h5 : (i : ℚ) * speed < y0 := (lt_div_iff hs).mp h4
    have hposi : 0 < (s0.iterate i).position.2 := by
      rw [hpos i (le_of_lt hi)]; linarith
    refine ⟨hposi, ?_⟩
    rw [Shot.propagateOrRemove, if_pos hposi]
  · rw [Shot.propagateOrRemove, if_neg (not_lt.mpr hreach)]

/-- C3 witness: a shot fired at y0 = 10 with speed 3 returns false on call
3, has y at or below 0 after 4 = ceil(10/3) calls, and returns true on
call 5. -/
theorem shot_expiry_witness :
    0 < ((Shot.create (0, 10) 3 3 0).iterate 2).position.2 ∧
    (((Shot.create (0, 10) 3 3 0).iterate 2).propagateOrRemove).1 = false ∧
    ((Shot.create (0, 10) 3 3 0).iterate ⌈(10 : ℚ) / 3⌉.toNat).position.2 ≤ 0 ∧
    (((Shot.create (0, 10) 3 3 0).iterate
      ⌈(10 : ℚ) / 3⌉.toNat).propagateOrRemove).1 = true :=
  ⟨((shot_expiry 0 10 3 3 0 (by norm_num) (by norm_num)).1 2
      (by rw [show ⌈(10 : ℚ) / 3⌉ = 4 from Int.ceil_eq_iff.mpr (by norm_num)]
          norm_num)).1,
   ((shot_expiry 0 10 3 3 0 (by norm_num) (by norm_num)).1 2
      (by rw [show ⌈(10 : ℚ) / 3⌉ = 4 from Int.ceil_eq_iff.mpr (by norm_num)]
          norm_num)).2,
   (shot_expiry 0 10 3 3 0 (by norm_num) (by norm_num)).2.1,
   (shot_expiry 0 10 3 3 0 (by norm_num) (by norm_num)).2.2⟩

set_option maxHeartbeats 1000000 in
/-- C4: resolveCollision first rewinds both particles to their
previousPosition and then updates the velocities so that, with positive
masses and distinct previousPositions, total momentum (componentwise) and
total kinetic energy are exactly conserved in exact rational arithmetic. -/
theorem resolveCollision_conserves (a b : Particle)
    (hma : 0 < a.mass) (hmb : 0 < b.mass)
    (hne : a.previousPosition ≠ b.previousPosition) :
    (Particle.resolveCollision a b).1.position = a.previousPosition ∧
    (Particle.resolveCollision a b).2.position = b.previousPosition ∧
    a.mass * (Particle.resolveCollision a b).1.velocity.1 +
        b.mass * (Particle.resolveCollision a b).2.velocity.1 =
      a.mass * a.velocity.1 + b.mass * b.velocity.1 ∧
    a.mass * (Particle.resolveCollision a b).1.velocity.2 +
        b.mass * (Particle.resolveCollision a b).2.velocity.2 =
      a.mass * a.velocity.2 + b.mass * b.velocity.2 ∧
    1 / 2 * a.mass * ((Particle.resolveCollision a b).1.velocity.1 ^ 2 +
          (Particle.resolveCollision a b).1.velocity.2 ^ 2) +
        1 / 2 * b.mass * ((Particle.resolveCollision a b).2.velocity.1 ^ 2 +
          (Particle.resolveCollision a b).2.velocity.2 ^ 2) =
      1 / 2 * a.mass * (a.velocity.1 ^ 2 + a.velocity.2 ^ 2) +
        1 / 2 * b.mass * (b.velocity.1 ^ 2 + b.velocity.2 ^ 2) := by
  have hM : a.mass + b.mass ≠ 0 := by positivity
  have hdx : a.previousPosition.1 - b.previousPosition.1 ≠ 0 ∨
      a.previousPosition.2 - b.previousPosition.2 ≠ 0 := by
    by_contra hcon
    push_neg at hcon
    exact hne (Prod.ext (by linarith [hcon.1]) (by linarith [hcon.2]))
  have hden : (a.previousPosition.1 - b.previousPosition.1) *
        (a.previousPosition.1 - b.previousPosition.1) +
      (a.previousPosition.2 - b.previousPosition.2) *
        (a.previousPosition.2 - b.previousPosition.2) ≠ 0 := by
    rcases hdx with hx | hx
    · have h1 : 0 < (a.previousPosition.1 - b.previousPosition.1) *
          (a.previousPosition.1 - b.previousPosition.1) := mul_self_pos.mpr hx
      have h2 : 0 ≤ (a.previousPosition.2 - b.previousPosition.2) *
          (a.previousPosition.2 - b.previousPosition.2) := mul_self_nonneg _
      linarith
    · have h1 : 0 < (a.previousPosition.2 - b.previousPosition.2) *
          (a.previousPosition.2 - b.previousPosition.2) := mul_self_pos.mpr hx
      have h2 : 0 ≤ (a.previousPosition.1 - b.previousPosition.1) *
          (a.previousPosition.1 - b.previousPosition.1) := mul_self_nonneg _
      linarith
  have hrevden : (b.previousPosition.1 - a.previousPosition.1) *
        (b.previousPosition.1 - a.previousPosition.1) +
      (b.previousPosition.2 - a.previousPosition.2) *
        (b.previousPosition.2 - a.previousPosition.2) =
      (a.previousPosition.1 - b.previousPosition.1) *
        (a.previousPosition.1 - b.previousPosition.1) +
      (a.previousPosition.2 - b.previousPosition.2) *
        (a.previousPosition.2 - b.previousPosition.2) := by ring
  have hrevnum : (b.velocity.1 - a.velocity.1) *
        (b.previousPosition.1 - a.previousPosition.1) +
      (b.velocity.2 - a.velocity.2) *
        (b.previousPosition.2 - a.previousPosition.2) =
      (a.velocity.1 - b.velocity.1) *
        (a.previousPosition.1 - b.previousPosition.1) +
      (a.velocity.2 - b.velocity.2) *
        (a.previousPosition.2 - b.previousPosition.2) := by ring
  refine ⟨rfl, rfl, ?_, ?_, ?_⟩ <;>
    · simp only [Particle.resolveCollision, scalarProduct2D]
      rw [hrevnum, hrevden]
      field_simp
      ring

/-- C4 witness: two unit-mass particles with previous positions (0,0) and
(1,0): the first is rewound to (0,0) and horizontal momentum is conserved. -/
theorem resolveCollision_conserves_witness :
    (Particle.resolveCollision (Particle.create (0, 0) (1, 0) 1 1 none)
        (Particle.create (1, 0) (-1, 0) 1 1 none)).1.position =
      (Particle.create (0, 0) (1, 0) 1 1 none).previousPosition ∧
    (Particle.create (0, 0) (1, 0) 1 1 none).mass *
        (Particle.resolveCollision (Particle.create (0, 0) (1, 0) 1 1 none)
          (Particle.create (1, 0) (-1, 0) 1 1 none)).1.velocity.1 +
      (Particle.create (1, 0) (-1, 0) 1 1 none).mass *
        (Particle.resolveCollision (Particle.create (0, 0) (1, 0) 1 1 none)
          (Particle.create (1, 0) (-1, 0) 1 1 none)).2.velocity.1 =
      (Particle.create (0, 0) (1, 0) 1 1 none).mass *
        (Particle.create (0, 0) (1, 0) 1 1 none).velocity.1 +
      (Particle.create (1, 0) (-1, 0) 1 1 none).mass *
        (Particle.create (1, 0) (-1, 0) 1 1 none).velocity.1 :=
  ⟨(resolveCollision_conserves (Particle.create (0, 0) (1, 0) 1 1 none)
      (Particle.create (1, 0) (-1, 0) 1 1 none)
      (by norm_num [Particle.create]) (by norm_num [Particle.create])
      (by simp [Particle.create, Prod.ext_iff])).1,
   (resolveCollision_conserves (Particle.create (0, 0) (1, 0) 1 1 none)
      (Particle.create (1, 0) (-1, 0) 1 1 none)
      (by norm_num [Particle.create]) (by norm_num [Particle.create])
      (by simp [Particle.create, Prod.ext_iff])).2.2.1⟩
